import Mathlib

/-!
# go-sshd: session layer of a minimal SSH server

A shallow embedding of `server.go` and `sshd_posix.go`.

* Go byte slices are lists of naturals (each a byte, so below 256) together
  with the part of the backing array between `len` and `cap`; indexing and
  slicing return `none` where Go panics.
* `uint8`, `uint16` and `uint32` arithmetic is arithmetic on `Nat` with an
  explicit `% 2 ^ w`.
* The effects of the request goroutine of one channel (replies, `cmd.Start`
  calls, ioctl calls, goroutines it spawns, calls of `channel.Close`) are
  recorded in a `Session` value that is passed along.
* What the operating system answers (`cmd.Start` succeeding or not, the errno
  of the ioctl, `Accept` and `pty.Open` succeeding or not) is an input.
* Calls of the `log` package have no effect on the modelled state and are left
  out.
-/

namespace Sshd

/-! ## Go byte slices -/

/-- A Go `[]byte`: `data` are the elements below `len`, `spare` the elements of
the backing array from `len` up to `cap`. -/
structure Bytes where
  data : List Nat
  spare : List Nat
deriving DecidableEq, Repr

/-- The builtin `len(b)`. -/
def Bytes.len (b : Bytes) : Nat := b.data.length

/-- The builtin `cap(b)`. -/
def Bytes.cap (b : Bytes) : Nat := b.data.length + b.spare.length

/-- The index expression `b[i]`; `none` is the run-time panic
"index out of range". -/
def Bytes.index (b : Bytes) (i : Nat) : Option Nat := b.data.get? i

/-- The slice expression `b[lo:hi]`; in range when `lo <= hi <= cap(b)`,
`none` is the run-time panic "slice bounds out of range". -/
def Bytes.slice (b : Bytes) (lo hi : Nat) : Option Bytes :=
  if lo ≤ hi ∧ hi ≤ b.cap then
    some { data := ((b.data ++ b.spare).take hi).drop lo,
           spare := (b.data ++ b.spare).drop hi }
  else none

/-- The slice expression `b[lo:]`, that is `b[lo:len(b)]`. -/
def Bytes.sliceFrom (b : Bytes) (lo : Nat) : Option Bytes := b.slice lo b.len

/-- The conversion `string(b)`: a Go string is its bytes; the byte `n` is
written as the character with code `n`. -/
def goString (b : Bytes) : String := String.mk (b.data.map Char.ofNat)

/-- The function `binary.BigEndian.Uint32`: it reads `b[3]` first (panic when
`len(b) < 4`) and returns
`uint32(b[3]) | uint32(b[2])<<8 | uint32(b[1])<<16 | uint32(b[0])<<24`. -/
def Uint32 (b : Bytes) : Option Nat :=
  match b.data with
  | b0 :: b1 :: b2 :: b3 :: _ =>
    some ((b3 % 2 ^ 32 ||| (b2 <<< 8) % 2 ^ 32 ||| (b1 <<< 16) % 2 ^ 32
      ||| (b0 <<< 24) % 2 ^ 32) % 2 ^ 32)
  | _ => none

/-- The function `parseDims` of server.go: width from the first four bytes,
height from the next four. -/
def parseDims (b : Bytes) : Option (Nat × Nat) :=
  match Uint32 b with
  | none => none
  | some w =>
    match b.sliceFrom 4 with
    | none => none
    | some rest =>
      match Uint32 rest with
      | none => none
      | some h => some (w, h)

/-! ## Terminal size (sshd_posix.go) -/

/-- The struct `WinSize`. -/
structure WinSize where
  Height : Nat
  Width : Nat
  x : Nat
  y : Nat
deriving DecidableEq, Repr

/-- The struct that `SetWinSize` builds and hands to the `TIOCSWINSZ` ioctl:
`WinSize{Width: uint16(width), Height: uint16(height)}`. -/
def SetWinSize (width height : Nat) : WinSize :=
  { Width := width % 2 ^ 16, Height := height % 2 ^ 16, x := 0, y := 0 }

/-! ## The request goroutine of one channel -/

/-- What the three standard streams of a command are bound to. -/
inductive Stdio
  | channel
  | tty
deriving DecidableEq, Repr

/-- The fields of an `exec.Cmd` that server.go sets. -/
structure Cmd where
  Path : String
  Args : List String
  Env : Option (List String)
  stdio : Stdio
  Setctty : Bool
  Setsid : Bool
deriving DecidableEq, Repr

/-- The `sync.Once` of one "shell" request with the two relay goroutines that
share it. -/
structure Once where
  done : Bool
  outRunning : Bool
  inRunning : Bool
deriving DecidableEq, Repr

/-- An `*ssh.Request`: its type (the field `Type`) and payload. -/
structure Request where
  Type_ : String
  Payload : Bytes
deriving DecidableEq, Repr

/-- The answers of the operating system while one request is handled. -/
structure OS where
  startOk : Bool
  errno : Nat
deriving DecidableEq, Repr

/-- Everything the request goroutine of one channel has done so far.

* `replies`: the calls `req.Reply(ok, nil)`, oldest first;
* `starts`: the calls `cmd.Start()` with their outcome, oldest first;
* `ioctls`: the structs handed to the `TIOCSWINSZ` ioctl with the errno;
* `termSize`: the size of the terminal, set by the last ioctl without error;
* `ttyCloses`: the calls `tty.Close()` (deferred in `PtyRun`);
* `waiters`: teardown goroutines of "exec" still blocked in `Process.Wait`;
* `onces`: one entry per "shell" request handled;
* `closes`: the calls `channel.Close()`;
* `panicked`: a run-time panic has ended the program. -/
structure Session where
  replies : List Bool
  starts : List (Cmd × Bool)
  ioctls : List (WinSize × Nat)
  termSize : Option WinSize
  ttyCloses : Nat
  waiters : Nat
  onces : List Once
  closes : Nat
  panicked : Bool
deriving DecidableEq, Repr

/-- The session right after the channel was accepted and the pty opened. -/
def Session.init : Session :=
  { replies := [], starts := [], ioctls := [], termSize := none, ttyCloses := 0,
    waiters := 0, onces := [], closes := 0, panicked := false }

/-- A run-time panic. -/
def Session.panic (s : Session) : Session := { s with panicked := true }

/-- The call `req.Reply(ok, nil)`. -/
def Session.reply (s : Session) (ok : Bool) : Session :=
  { s with replies := s.replies ++ [ok] }

/-- The call `SetWinSize(f.Fd(), w, h)`, whose result is dropped. -/
def Session.setWinSize (s : Session) (w h errno : Nat) : Session :=
  { s with
    ioctls := s.ioctls ++ [(SetWinSize w h, errno)],
    termSize := if errno = 0 then some (SetWinSize w h) else s.termSize }

/-- The command of `case "exec"`: `exec.Command(shell, "-c", command)` with
the three streams set to the channel. -/
def execCmd (shell command : String) : Cmd :=
  { Path := shell, Args := ["-c", command], Env := none, stdio := Stdio.channel,
    Setctty := false, Setsid := false }

/-- The command of `case "shell"` after `PtyRun` has set it up:
`exec.Command(shell)` with `Env = ["TERM=xterm"]`, the three streams set to
the tty, `Setctty` and `Setsid`. -/
def shellCmd (shell : String) : Cmd :=
  { Path := shell, Args := [], Env := some ["TERM=xterm"], stdio := Stdio.tty,
    Setctty := true, Setsid := true }

/-- The body of `case "exec"`. -/
def handleExec (shell : String) (s : Session) (req : Request) (os : OS) : Session :=
  match req.Payload.index 3 with
  | none => s.panic
  | some n =>
    match req.Payload.slice 4 ((n + 4) % 2 ^ 8) with
    | none => s.panic
    | some c =>
      let s1 := { s with starts := s.starts ++ [(execCmd shell (goString c), os.startOk)] }
      if os.startOk then
        Session.reply { s1 with waiters := s1.waiters + 1 } true
      else s1

/-- The body of `case "shell"`. -/
def handleShell (shell : String) (s : Session) (req : Request) (os : OS) : Session :=
  let s1 := { s with starts := s.starts ++ [(shellCmd shell, os.startOk)],
                     ttyCloses := s.ttyCloses + 1 }
  let once : Once := { done := false, outRunning := true, inRunning := true }
  let s2 := { s1 with onces := s1.onces ++ [once] }
  s2.reply (decide (req.Payload.len = 0))

/-- The body of `case "pty-req"`. -/
def handlePtyReq (s : Session) (req : Request) (os : OS) : Session :=
  match req.Payload.index 3 with
  | none => s.panic
  | some termLen =>
    match req.Payload.slice 4 ((termLen + 4) % 2 ^ 8) with
    | none => s.panic
    | some _termEnv =>
      match req.Payload.sliceFrom ((termLen + 4) % 2 ^ 8) with
      | none => s.panic
      | some dims =>
        match parseDims dims with
        | none => s.panic
        | some (w, h) => (s.setWinSize w h os.errno).reply true

/-- The body of `case "window-change"`. -/
def handleWindowChange (s : Session) (req : Request) (os : OS) : Session :=
  match parseDims req.Payload with
  | none => s.panic
  | some (w, h) => s.setWinSize w h os.errno

/-- One turn of the loop `for req := range in` of the request goroutine:
the `switch req.Type` and what follows it. -/
def handleRequest (shell : String) (s : Session) (req : Request) (os : OS) : Session :=
  if req.Type_ = "exec" then handleExec shell s req os
  else if req.Type_ = "shell" then handleShell shell s req os
  else if req.Type_ = "pty-req" then handlePtyReq s req os
  else if req.Type_ = "window-change" then handleWindowChange s req os
  else s.reply false

/-- The loop `for req := range in`: requests are handled in order; a panic
ends the program, so nothing after it is handled. -/
def requestLoop (shell : String) : Session → List (Request × OS) → Session
  | s, [] => s
  | s, (req, os) :: rest =>
    if (handleRequest shell s req os).panicked then handleRequest shell s req os
    else requestLoop shell (handleRequest shell s req os) rest


/-! ## The goroutines of one session, interleaved -/

/-- What can happen next in a session: the request goroutine handles a request,
the `Process.Wait` of an "exec" teardown goroutine returns, or the `io.Copy`
of one of the two relay goroutines of the `k`-th "shell" request returns.
The code does not wait for the process of a "shell" request: its exit reaches
the session as the end of `io.Copy(channel, f)`. -/
inductive Event
  | request (req : Request) (os : OS)
  | processExit
  | controllerEOF (k : Nat)
  | channelEOF (k : Nat)
deriving DecidableEq, Repr

/-- The teardown triggers among the events. -/
def Event.isTrigger : Event → Bool
  | Event.request _ _ => false
  | _ => true

/-- The call `once.Do(chanClose)` on the `sync.Once` value `o`: the number of
calls of `channel.Close()` afterwards. -/
def onceDo (o : Once) (closes : Nat) : Nat := if o.done then closes else closes + 1

/-- One step of a session. `none`: the event cannot happen in this state (the
program has panicked, no teardown goroutine is waiting, the relay goroutine
does not exist or has already returned). -/
def step (shell : String) (s : Session) : Event → Option Session
  | Event.request req os =>
    if s.panicked then none else some (handleRequest shell s req os)
  | Event.processExit =>
    if s.panicked then none
    else if 0 < s.waiters then
      some { s with waiters := s.waiters - 1, closes := s.closes + 1 }
    else none
  | Event.controllerEOF k =>
    if s.panicked then none
    else
      match s.onces.get? k with
      | none => none
      | some o =>
        if o.outRunning then
          some { s with
            onces := s.onces.set k { o with outRunning := false, done := true },
            closes := onceDo o s.closes }
        else none
  | Event.channelEOF k =>
    if s.panicked then none
    else
      match s.onces.get? k with
      | none => none
      | some o =>
        if o.inRunning then
          some { s with
            onces := s.onces.set k { o with inRunning := false, done := true },
            closes := onceDo o s.closes }
        else none

/-- The states reached by a sequence of events. -/
def run (shell : String) : Session → List Event → Option Session
  | s, [] => some s
  | s, e :: es =>
    match step shell s e with
    | none => none
    | some s1 => run shell s1 es

/-! ## The server -/

/-- The constant `DefaultShell`. -/
def DefaultShell : String := "sh"

/-- The struct `Server`: `hasListener` says that the field `listener` is not
nil, `listenerCloses` counts the calls `srv.listener.Close()`. -/
structure Server where
  shellPath : String
  hasListener : Bool
  listenerCloses : Nat
  closed : Bool
deriving DecidableEq, Repr

/-- The dynamic type of the value passed as `config`. -/
inductive Config
  | serverConfig
  | other
deriving DecidableEq, Repr

/-- The function `NewServer`; `none` is the panic
"invalid config: type assertion failed". -/
def NewServer (shellPath : String) (config : Config) : Option Server :=
  match config with
  | Config.serverConfig =>
    some { shellPath := shellPath, hasListener := false, listenerCloses := 0,
           closed := false }
  | Config.other => none

/-- The method `isClosed`. -/
def Server.isClosed (srv : Server) : Bool := srv.closed

/-- The method `Close`. -/
def Server.Close (srv : Server) : Server :=
  { srv with
    closed := true,
    listenerCloses := if srv.hasListener then srv.listenerCloses + 1
                      else srv.listenerCloses }

/-- What happens next while `Serve` runs: `listener.Accept()` returns a
connection, `listener.Accept()` returns an error, or another goroutine calls
`srv.Close()`. -/
inductive ServeStep
  | conn (c : Nat)
  | fail (e : String)
  | close
deriving DecidableEq, Repr

/-- Whether a step is a failing `Accept`. -/
def ServeStep.isFail : ServeStep → Bool
  | ServeStep.fail _ => true
  | _ => false

/-- What `Serve` has done: the server afterwards, the connections handed to
`handleConn`, the number of calls of `Accept` that returned, and the result
(`none`: still blocked in `Accept`; `some none`: returned nil;
`some (some m)`: returned an error with message `m`). -/
structure ServeResult where
  srv : Server
  conns : List Nat
  accepts : Nat
  result : Option (Option String)
deriving DecidableEq, Repr

/-- The accept loop of `Serve`. -/
def serveLoop (srv : Server) (conns : List Nat) (accepts : Nat) :
    List ServeStep → ServeResult
  | [] => { srv := srv, conns := conns, accepts := accepts, result := none }
  | ServeStep.conn c :: rest => serveLoop srv (conns ++ [c]) (accepts + 1) rest
  | ServeStep.close :: rest => serveLoop srv.Close conns accepts rest
  | ServeStep.fail e :: _ =>
    if srv.isClosed then
      { srv := srv, conns := conns, accepts := accepts + 1, result := some none }
    else
      { srv := srv, conns := conns, accepts := accepts + 1,
        result := some (some ("accept incoming connection: " ++ e)) }

/-- The method `Serve`; the listener is nil (`none`) or given by what happens
while it is served. -/
def Server.Serve (srv : Server) (listener : Option (List ServeStep)) : ServeResult :=
  match listener with
  | none =>
    { srv := srv, conns := [], accepts := 0,
      result := some (some "listen on nil listener") }
  | some steps => serveLoop { srv with hasListener := true } [] 0 steps

/-! ## Incoming channels -/

/-- The type `ssh.RejectionReason`. -/
inductive RejectionReason
  | Prohibited
  | ConnectionFailed
  | UnknownChannelType
  | ResourceShortage
deriving DecidableEq, Repr

/-- An `ssh.NewChannel` with what follows from it: whether `Accept` and
`pty.Open` succeed, and the requests that arrive on the accepted channel. -/
structure NewChannel where
  ChannelType : String
  acceptOk : Bool
  ptyOk : Bool
  requests : List (Request × OS)
deriving DecidableEq, Repr

/-- What `handleChannels` does with one incoming channel. `serve shell s`: the
request goroutine is started with `shell`; `s` is what it does with the
requests of the channel. -/
inductive ChanEvent
  | reject (reason : RejectionReason) (message : String)
  | accept (ok : Bool)
  | ptyOpen (ok : Bool)
  | serve (shell : String) (s : Session)
deriving DecidableEq, Repr

/-- The body of the loop `for newChan := range in` of `handleChannels`;
`SHELL` is the value of `os.Getenv("SHELL")`. -/
def handleChannel (_srv : Server) (SHELL : String) (c : NewChannel) : List ChanEvent :=
  if c.ChannelType ≠ "session" then
    [ChanEvent.reject RejectionReason.UnknownChannelType
      ("unknown channel type: " ++ c.ChannelType)]
  else if c.acceptOk = false then [ChanEvent.accept false]
  else if c.ptyOk = false then [ChanEvent.accept true, ChanEvent.ptyOpen false]
  else
    let shell := if SHELL = "" then DefaultShell else SHELL
    [ChanEvent.accept true, ChanEvent.ptyOpen true,
      ChanEvent.serve shell (requestLoop shell Session.init c.requests)]

/-- The method `handleChannels`: one list of events per incoming channel. -/
def handleChannels (srv : Server) (SHELL : String) : List NewChannel → List (List ChanEvent)
  | [] => []
  | c :: rest => handleChannel srv SHELL c :: handleChannels srv SHELL rest

/-- The calls of `cmd.Start` made for a channel. -/
def startsOf : List ChanEvent → List (Cmd × Bool)
  | [] => []
  | ChanEvent.serve _ s :: rest => s.starts ++ startsOf rest
  | _ :: rest => startsOf rest

/-- Whether an event is a call of `Reject`. -/
def ChanEvent.isReject : ChanEvent → Bool
  | ChanEvent.reject _ _ => true
  | _ => false

/-- Whether an event is a call of `Accept`. -/
def ChanEvent.isAccept : ChanEvent → Bool
  | ChanEvent.accept _ => true
  | _ => false

/-- Whether an event is a call of `pty.Open`. -/
def ChanEvent.isPtyOpen : ChanEvent → Bool
  | ChanEvent.ptyOpen _ => true
  | _ => false

/-! ## Payloads as the specification describes them -/

/-- The 4-byte big-endian encoding of `n`. -/
def be32 (n : Nat) : List Nat :=
  [n / 2 ^ 24 % 256, n / 2 ^ 16 % 256, n / 2 ^ 8 % 256, n % 256]

/-- The payload of a "window-change" request for `width` x `height`. -/
def windowChange (width height : Nat) : Request :=
  { Type_ := "window-change", Payload := { data := be32 width ++ be32 height, spare := [] } }

/-- The "exec" request whose payload encodes the command "echo hi". -/
def execEchoHi : Request :=
  { Type_ := "exec",
    Payload := { data := [0, 0, 0, 7, 101, 99, 104, 111, 32, 104, 105], spare := [] } }

/-- The answers of an operating system where everything succeeds. -/
def osOk : OS := { startOk := true, errno := 0 }

/-- A payload in the shape the specification describes, within the range the
handlers read without a check: for "exec" a length byte `n` at index 3 with
`n <= 251` followed by at least `n` bytes, for "pty-req" the same followed by
at least 8 more bytes, for "window-change" at least 8 bytes. -/
def wellFormed (req : Request) : Bool :=
  if req.Type_ = "exec" then
    match req.Payload.index 3 with
    | some n => decide (n ≤ 251) && decide (n + 4 ≤ req.Payload.len)
    | none => false
  else if req.Type_ = "pty-req" then
    match req.Payload.index 3 with
    | some n => decide (n ≤ 251) && decide (n + 4 + 8 ≤ req.Payload.len)
    | none => false
  else if req.Type_ = "window-change" then decide (8 ≤ req.Payload.len)
  else true

/-- Whether a request asks for a process: "exec" or "shell". -/
def isLaunch (req : Request) : Bool :=
  decide (req.Type_ = "exec") || decide (req.Type_ = "shell")

/-- An "exec" request whose payload is the length prefix 252 followed by a
command of 252 bytes (the letter a). -/
def execLong252 : Request :=
  { Type_ := "exec", Payload := { data := [0, 0, 0, 252] ++ List.replicate 252 97, spare := [] } }

/-- A request of the given type with an empty payload. -/
def emptyRequest (ty : String) : Request :=
  { Type_ := ty, Payload := { data := [], spare := [] } }

/-- A "shell" request with the one-byte payload `[1]`. -/
def shellWithPayload : Request :=
  { Type_ := "shell", Payload := { data := [1], spare := [] } }

/-- The requests of a sequence of window changes, each with the answer of the
operating system. -/
def windowChanges (ds : List ((Nat × Nat) × OS)) : List (Request × OS) :=
  ds.map (fun d => (windowChange d.1.1 d.1.2, d.2))

/-- The session after a "shell" request with empty payload was handled and
both relay goroutines have returned. -/
def shellClosed : Session :=
  { replies := [true], starts := [(shellCmd "sh", true)], ioctls := [], termSize := none,
    ttyCloses := 1, waiters := 0,
    onces := [{ done := true, outRunning := false, inRunning := false }],
    closes := 1, panicked := false }

/-! ## The invariant of a session -/

/-- The invariant of a session: every `sync.Once` that is done has closed the
channel, and every call of `channel.Close()`, every waiting teardown goroutine
and every `sync.Once` not yet done comes from its own call of `cmd.Start`. -/
def Inv (s : Session) : Prop :=
  s.onces.countP (fun o => o.done) ≤ s.closes
  ∧ s.closes + s.waiters + s.onces.countP (fun o => !o.done) ≤ s.starts.length

/-! ## Lemmas on byte slices -/

theorem or_shift_eq (a b k : Nat) (hb : b < 2 ^ k) : b ||| a <<< k = 2 ^ k * a + b := by
  rw [Nat.lor_comm, Nat.shiftLeft_eq, Nat.mul_comm a, Nat.mul_add_lt_is_or hb]

theorem Uint32_cons (b0 b1 b2 b3 : Nat) (t spare : List Nat) :
    Uint32 { data := b0 :: b1 :: b2 :: b3 :: t, spare := spare } =
    some ((b3 % 2 ^ 32 ||| (b2 <<< 8) % 2 ^ 32 ||| (b1 <<< 16) % 2 ^ 32
      ||| (b0 <<< 24) % 2 ^ 32) % 2 ^ 32) := rfl

theorem be_value (w : Nat) (hw : w < 4294967296) :
    (w % 256 % 2 ^ 32 ||| ((w / 2 ^ 8 % 256) <<< 8) % 2 ^ 32 ||| ((w / 2 ^ 16 % 256) <<< 16) % 2 ^ 32
      ||| ((w / 2 ^ 24 % 256) <<< 24) % 2 ^ 32) % 2 ^ 32 = w := by
  have h3 : w % 256 < 2 ^ 8 := by omega
  have h2 : 2 ^ 8 * (w / 2 ^ 8 % 256) + w % 256 < 2 ^ 16 := by omega
  have h1 : 2 ^ 16 * (w / 2 ^ 16 % 256) + (2 ^ 8 * (w / 2 ^ 8 % 256) + w % 256) < 2 ^ 24 := by
    omega
  have e3 : w % 256 % 2 ^ 32 = w % 256 := by omega
  have e2 : ((w / 2 ^ 8 % 256) <<< 8) % 2 ^ 32 = (w / 2 ^ 8 % 256) <<< 8 := by
    rw [Nat.shiftLeft_eq]; omega
  have e1 : ((w / 2 ^ 16 % 256) <<< 16) % 2 ^ 32 = (w / 2 ^ 16 % 256) <<< 16 := by
    rw [Nat.shiftLeft_eq]; omega
  have e0 : ((w / 2 ^ 24 % 256) <<< 24) % 2 ^ 32 = (w / 2 ^ 24 % 256) <<< 24 := by
    rw [Nat.shiftLeft_eq]; omega
  rw [e3, e2, e1, e0, or_shift_eq _ _ 8 h3, or_shift_eq _ _ 16 h2, or_shift_eq _ _ 24 h1]
  omega

theorem Uint32_be32 (w : Nat) (hw : w < 2 ^ 32) (t spare : List Nat) :
    Uint32 { data := be32 w ++ t, spare := spare } = some w := by
  have e : be32 w ++ t = w / 2 ^ 24 % 256 :: w / 2 ^ 16 % 256 :: w / 2 ^ 8 % 256 :: w % 256 :: t := rfl
  rw [e, Uint32_cons, be_value w (by omega)]

theorem sliceFrom_data (d spare : List Nat) (lo : Nat) (h : lo ≤ d.length) :
    ∃ sp, Bytes.sliceFrom { data := d, spare := spare } lo = some { data := d.drop lo, spare := sp } := by
  refine ⟨spare, ?_⟩
  simp only [Bytes.sliceFrom, Bytes.slice, Bytes.len, Bytes.cap]
  rw [if_pos ⟨h, Nat.le_add_right _ _⟩]
  simp [List.take_append_eq_append_take, List.drop_append_eq_append_drop]

theorem parseDims_be32 (w h : Nat) (hw : w < 2 ^ 32) (hh : h < 2 ^ 32) (t spare : List Nat) :
    parseDims { data := be32 w ++ (be32 h ++ t), spare := spare } = some (w, h) := by
  obtain ⟨sp, hsp⟩ := sliceFrom_data (be32 w ++ (be32 h ++ t)) spare 4 (by simp [be32])
  have hd : (be32 w ++ (be32 h ++ t)).drop 4 = be32 h ++ t := by simp [be32]
  rw [hd] at hsp
  simp only [parseDims, Uint32_be32 w hw, hsp, Uint32_be32 h hh]

/-! ## Lemmas on the request loop -/

theorem requestLoop_cons_ok (shell : String) (s : Session) (req : Request) (os : OS)
    (rest : List (Request × OS)) (h : (handleRequest shell s req os).panicked = false) :
    requestLoop shell s ((req, os) :: rest)
      = requestLoop shell (handleRequest shell s req os) rest := by
  simp [requestLoop, h]

theorem requestLoop_cons_panic (shell : String) (s : Session) (req : Request) (os : OS)
    (rest : List (Request × OS)) (h : (handleRequest shell s req os).panicked = true) :
    requestLoop shell s ((req, os) :: rest) = handleRequest shell s req os := by
  simp [requestLoop, h]

theorem requestLoop_append (shell : String) (xs ys : List (Request × OS)) :
    ∀ s : Session, (requestLoop shell s xs).panicked = false →
      requestLoop shell s (xs ++ ys) = requestLoop shell (requestLoop shell s xs) ys := by
  induction xs with
  | nil => intro s _; rfl
  | cons x xs ih =>
    intro s h
    obtain ⟨req, os⟩ := x
    by_cases hp : (handleRequest shell s req os).panicked = true
    · rw [requestLoop_cons_panic shell s req os xs hp] at h
      rw [hp] at h
      exact absurd h (by decide)
    · have hp2 : (handleRequest shell s req os).panicked = false := by simpa using hp
      rw [requestLoop_cons_ok shell s req os xs hp2] at h
      rw [List.cons_append, requestLoop_cons_ok shell s req os _ hp2,
        requestLoop_cons_ok shell s req os _ hp2]
      exact ih _ h

theorem handleRequest_windowChange (shell : String) (s : Session) (w h : Nat) (os : OS)
    (hw : w < 2 ^ 32) (hh : h < 2 ^ 32) :
    handleRequest shell s (windowChange w h) os = s.setWinSize w h os.errno := by
  have hp : parseDims (windowChange w h).Payload = some (w, h) := by
    have := parseDims_be32 w h hw hh [] []
    simpa [windowChange] using this
  have ht : (windowChange w h).Type_ = "window-change" := rfl
  simp [handleRequest, handleWindowChange, ht, hp]

theorem requestLoop_windowChanges (shell : String) (ds : List ((Nat × Nat) × OS))
    (hds : ∀ d ∈ ds, d.1.1 < 65536 ∧ d.1.2 < 65536) :
    ∀ s : Session, s.panicked = false →
      (requestLoop shell s (windowChanges ds)).panicked = false
      ∧ (requestLoop shell s (windowChanges ds)).replies = s.replies := by
  induction ds with
  | nil => intro s hs; exact ⟨hs, rfl⟩
  | cons d ds ih =>
    intro s hs
    have hd := hds d (List.mem_cons_self _ _)
    have e := handleRequest_windowChange shell s d.1.1 d.1.2 d.2 (by omega) (by omega)
    have hp : (handleRequest shell s (windowChange d.1.1 d.1.2) d.2).panicked = false := by
      rw [e]; exact hs
    have hr : (handleRequest shell s (windowChange d.1.1 d.1.2) d.2).replies = s.replies := by
      rw [e]; rfl
    have := ih (fun x hx => hds x (List.mem_cons_of_mem _ hx)) _ hp
    simp only [windowChanges, List.map_cons] at this ⊢
    rw [requestLoop_cons_ok shell s _ _ _ hp]
    exact ⟨this.1, this.2.trans hr⟩

theorem slice_within (d spare : List Nat) (lo hi : Nat) (h1 : lo ≤ hi) (h2 : hi ≤ d.length) :
    ∃ sp, Bytes.slice { data := d, spare := spare } lo hi
      = some { data := (d.take hi).drop lo, spare := sp } := by
  refine ⟨(d ++ spare).drop hi, ?_⟩
  simp only [Bytes.slice, Bytes.cap]
  rw [if_pos ⟨h1, by omega⟩, List.take_append_of_le_length h2]

theorem parseDims_of_len (d spare : List Nat) (h : 8 ≤ d.length) :
    ∃ w ht, parseDims { data := d, spare := spare } = some (w, ht) := by
  match d, h with
  | b0 :: b1 :: b2 :: b3 :: b4 :: b5 :: b6 :: b7 :: t, _ =>
    obtain ⟨sp, hsp⟩ := sliceFrom_data (b0 :: b1 :: b2 :: b3 :: b4 :: b5 :: b6 :: b7 :: t)
      spare 4 (by simp)
    simp only [List.drop_succ_cons, List.drop_zero] at hsp
    have hp : ∃ p, parseDims (Bytes.mk (b0 :: b1 :: b2 :: b3 :: b4 :: b5 :: b6 :: b7 :: t) spare)
        = some p := by
      simp only [parseDims, Uint32_cons, hsp]
      exact ⟨_, rfl⟩
    obtain ⟨⟨w, ht⟩, e⟩ := hp
    exact ⟨w, ht, e⟩

theorem handleExec_wellFormed (shell : String) (s : Session) (req : Request) (os : OS)
    (n : Nat) (hn : req.Payload.index 3 = some n) (h1 : n ≤ 251)
    (h2 : n + 4 ≤ req.Payload.len) :
    handleExec shell s req os
      = if os.startOk then
          Session.reply { s with
            starts := s.starts ++ [(execCmd shell
              (String.mk (((req.Payload.data.take (n + 4)).drop 4).map Char.ofNat)), os.startOk)],
            waiters := s.waiters + 1 } true
        else
          { s with
            starts := s.starts ++ [(execCmd shell
              (String.mk (((req.Payload.data.take (n + 4)).drop 4).map Char.ofNat)), os.startOk)] } := by
  obtain ⟨ty, d, spare⟩ := req
  have hm : (n + 4) % 2 ^ 8 = n + 4 := by omega
  obtain ⟨sp, hsp⟩ := slice_within d spare 4 (n + 4) (by omega) h2
  simp only [handleExec, hn, hm, hsp, goString]

theorem handlePtyReq_wellFormed (s : Session) (req : Request) (os : OS)
    (n : Nat) (hn : req.Payload.index 3 = some n) (h1 : n ≤ 251)
    (h2 : n + 4 + 8 ≤ req.Payload.len) :
    ∃ w ht, handlePtyReq s req os = (s.setWinSize w ht os.errno).reply true := by
  obtain ⟨ty, d, spare⟩ := req
  have hm : (n + 4) % 2 ^ 8 = n + 4 := by omega
  have h2' : n + 4 + 8 ≤ d.length := h2
  obtain ⟨sp, hsp⟩ := slice_within d spare 4 (n + 4) (by omega) (by omega)
  obtain ⟨sp2, hsp2⟩ := sliceFrom_data d spare (n + 4) (by omega)
  obtain ⟨w, ht, hwh⟩ := parseDims_of_len (d.drop (n + 4)) sp2 (by simp; omega)
  exact ⟨w, ht, by simp only [handlePtyReq, hn, hm, hsp, hsp2, hwh]⟩

theorem handleWindowChange_replies (s : Session) (req : Request) (os : OS) :
    (handleWindowChange s req os).replies = s.replies
    ∧ (handleWindowChange s req os).starts = s.starts := by
  unfold handleWindowChange
  split <;> exact ⟨rfl, rfl⟩

theorem handleWindowChange_wellFormed (s : Session) (req : Request) (os : OS)
    (h : 8 ≤ req.Payload.len) :
    ∃ w ht, handleWindowChange s req os = s.setWinSize w ht os.errno := by
  obtain ⟨ty, d, spare⟩ := req
  obtain ⟨w, ht, hwh⟩ := parseDims_of_len d spare h
  exact ⟨w, ht, by simp only [handleWindowChange, hwh]⟩

theorem handlePtyReq_starts (s : Session) (req : Request) (os : OS) :
    (handlePtyReq s req os).starts = s.starts := by
  unfold handlePtyReq
  repeat (first | rfl | split)

theorem handleRequest_wellFormed (shell : String) (s : Session) (req : Request) (os : OS)
    (hs : s.panicked = false) (hw : wellFormed req = true) :
    (handleRequest shell s req os).panicked = false := by
  unfold wellFormed at hw
  unfold handleRequest
  by_cases h1 : req.Type_ = "exec"
  · simp only [h1, if_true] at hw ⊢
    cases hn : req.Payload.index 3 with
    | none => simp [hn] at hw
    | some n =>
      simp only [hn, Bool.and_eq_true, decide_eq_true_eq] at hw
      rw [handleExec_wellFormed shell s req os n hn hw.1 hw.2]
      cases os.startOk <;> simpa [Session.reply] using hs
  · simp only [h1, if_false] at hw ⊢
    by_cases h2 : req.Type_ = "shell"
    · simp only [h2, if_true]
      simpa [handleShell, Session.reply] using hs
    · simp only [h2, if_false]
      by_cases h3 : req.Type_ = "pty-req"
      · simp only [h3, if_true] at hw ⊢
        cases hn : req.Payload.index 3 with
        | none => simp [hn] at hw
        | some n =>
          simp only [hn, Bool.and_eq_true, decide_eq_true_eq] at hw
          obtain ⟨w, ht, e⟩ := handlePtyReq_wellFormed s req os n hn hw.1 hw.2
          rw [e]
          simpa [Session.reply, Session.setWinSize] using hs
      · simp only [h3, if_false] at hw ⊢
        by_cases h4 : req.Type_ = "window-change"
        · simp only [h4, if_true, decide_eq_true_eq] at hw ⊢
          obtain ⟨w, ht, e⟩ := handleWindowChange_wellFormed s req os hw
          rw [e]
          simpa [Session.setWinSize] using hs
        · simp only [h4, if_false]
          simpa [Session.reply] using hs

theorem handleRequest_starts (shell : String) (s : Session) (req : Request) (os : OS)
    (h : (handleRequest shell s req os).panicked = false) :
    (handleRequest shell s req os).starts.length
        = s.starts.length + (if isLaunch req = true then 1 else 0)
    ∧ (handleRequest shell s req os).starts.countP (fun c => c.2)
        = s.starts.countP (fun c => c.2)
          + (if (isLaunch req && os.startOk) = true then 1 else 0) := by
  unfold handleRequest at h ⊢
  by_cases h1 : req.Type_ = "exec"
  · simp only [h1, if_true] at h ⊢
    have hl : isLaunch req = true := by simp [isLaunch, h1]
    unfold handleExec at h ⊢
    split at h
    · simp [Session.panic] at h
    · split at h
      · simp [Session.panic] at h
      · cases hso : os.startOk <;> simp [hl, hso, Session.reply, List.countP_append]
  · simp only [h1, if_false] at h ⊢
    by_cases h2 : req.Type_ = "shell"
    · simp only [h2, if_true]
      have hl : isLaunch req = true := by simp [isLaunch, h2]
      cases hso : os.startOk <;>
        simp [hl, hso, handleShell, Session.reply, List.countP_append]
    · simp only [h2, if_false]
      have hl : isLaunch req = false := by simp [isLaunch, h1, h2]
      by_cases h3 : req.Type_ = "pty-req"
      · simp only [h3, if_true]
        rw [handlePtyReq_starts]
        simp [hl]
      · simp only [h3, if_false]
        by_cases h4 : req.Type_ = "window-change"
        · simp only [h4, if_true]
          rw [(handleWindowChange_replies s req os).2]
          simp [hl]
        · simp only [h4, if_false]
          simp [hl, Session.reply]

theorem requestLoop_starts (shell : String) (rs : List (Request × OS)) :
    ∀ s : Session, (requestLoop shell s rs).panicked = false →
      (requestLoop shell s rs).starts.length
          = s.starts.length + rs.countP (fun r => isLaunch r.1)
      ∧ (requestLoop shell s rs).starts.countP (fun c => c.2)
          = s.starts.countP (fun c => c.2)
            + rs.countP (fun r => isLaunch r.1 && r.2.startOk) := by
  induction rs with
  | nil => intro s _; simp [requestLoop]
  | cons r rs ih =>
    intro s h
    obtain ⟨req, os⟩ := r
    by_cases hp : (handleRequest shell s req os).panicked = true
    · rw [requestLoop_cons_panic shell s req os rs hp, hp] at h
      exact absurd h (by decide)
    · have hp2 : (handleRequest shell s req os).panicked = false := by simpa using hp
      rw [requestLoop_cons_ok shell s req os rs hp2] at h ⊢
      obtain ⟨a, b⟩ := ih _ h
      obtain ⟨c, d⟩ := handleRequest_starts shell s req os hp2
      rw [a, b, c, d, List.countP_cons, List.countP_cons]
      constructor <;> simp only [] <;> omega

theorem handleRequest_no_failure_reply (shell : String) (s : Session) (req : Request) (os : OS)
    (ht : req.Type_ = "exec" ∨ req.Type_ = "pty-req" ∨ req.Type_ = "window-change") :
    (handleRequest shell s req os).replies = s.replies
    ∨ (handleRequest shell s req os).replies = s.replies ++ [true] := by
  rcases ht with h | h | h
  · simp only [handleRequest, h, if_true]
    unfold handleExec
    repeat' split
    all_goals simp [Session.panic, Session.reply]
  · simp only [handleRequest, h]
    simp only [show ¬ ("pty-req" = "exec") by decide, show ¬ ("pty-req" = "shell") by decide,
      if_false, if_true]
    unfold handlePtyReq
    repeat' split
    all_goals simp [Session.panic, Session.reply, Session.setWinSize]
  · simp only [handleRequest, h]
    exact Or.inl (handleWindowChange_replies s req os).1

/-! ## Lemmas on the interleaved session -/

theorem countP_set (p : Once → Bool) (o o1 : Once) :
    ∀ (l : List Once) (k : Nat), l.get? k = some o →
      (l.set k o1).countP p + (if p o = true then 1 else 0)
        = l.countP p + (if p o1 = true then 1 else 0) := by
  intro l
  induction l with
  | nil => intro k h; simp at h
  | cons a l ih =>
    intro k h
    cases k with
    | zero =>
      simp only [List.get?_cons_zero, Option.some.injEq] at h
      subst h
      simp only [List.set_cons_zero, List.countP_cons]
      omega
    | succ k =>
      simp only [List.get?_cons_succ] at h
      have := ih k h
      simp only [List.set_cons_succ, List.countP_cons]
      omega

theorem countP_pos_of_get (p : Once → Bool) (o : Once) :
    ∀ (l : List Once) (k : Nat), l.get? k = some o → p o = true → 1 ≤ l.countP p := by
  intro l
  induction l with
  | nil => intro k h; simp at h
  | cons a l ih =>
    intro k h hp
    cases k with
    | zero =>
      simp only [List.get?_cons_zero, Option.some.injEq] at h
      subst h
      simp [List.countP_cons, hp]
    | succ k =>
      simp only [List.get?_cons_succ] at h
      have := ih k h hp
      simp only [List.countP_cons]
      omega

theorem handleRequest_inv (shell : String) (s : Session) (req : Request) (os : OS)
    (h : Inv s) :
    Inv (handleRequest shell s req os) ∧ (handleRequest shell s req os).closes = s.closes := by
  unfold Inv at h ⊢
  unfold handleRequest handleExec handleShell handlePtyReq handleWindowChange
  repeat' split
  all_goals
    simp only [Session.panic, Session.reply, Session.setWinSize, List.countP_append,
      List.length_append, List.countP_cons, List.countP_nil, List.length_cons, List.length_nil]
    simp
    omega

theorem relay_inv (s : Session) (k : Nat) (o o1 : Once) (h : Inv s)
    (hk : s.onces.get? k = some o) (hd : o1.done = true) :
    Inv { s with onces := s.onces.set k o1, closes := onceDo o s.closes }
    ∧ s.closes ≤ onceDo o s.closes ∧ 1 ≤ onceDo o s.closes := by
  unfold Inv at h ⊢
  have c1 := countP_set (fun o => o.done) o o1 s.onces k hk
  have c2 := countP_set (fun o => !o.done) o o1 s.onces k hk
  simp only [hd, if_true, Bool.not_true] at c1 c2
  cases hod : o.done with
  | true =>
    have := countP_pos_of_get (fun o => o.done) o s.onces k hk hod
    simp only [hod, if_true, Bool.not_true] at c1 c2
    simp only [onceDo, hod, if_true]
    simp at c2
    refine ⟨⟨?_, ?_⟩, ?_, ?_⟩ <;> omega
  | false =>
    simp only [hod, Bool.not_false, if_true] at c1 c2
    simp only [onceDo, hod, Bool.false_eq_true, if_false]
    simp at c1 c2
    refine ⟨⟨?_, ?_⟩, ?_, ?_⟩ <;> omega

theorem step_inv (shell : String) (s s1 : Session) (e : Event) (h : Inv s)
    (hstep : step shell s e = some s1) :
    Inv s1 ∧ s.closes ≤ s1.closes ∧ (e.isTrigger = true → 1 ≤ s1.closes) := by
  cases e with
  | request req os =>
    simp only [step] at hstep
    split at hstep
    · exact absurd hstep (by simp)
    · simp only [Option.some.injEq] at hstep
      subst hstep
      obtain ⟨a, b⟩ := handleRequest_inv shell s req os h
      exact ⟨a, by omega, by simp [Event.isTrigger]⟩
  | processExit =>
    simp only [step] at hstep
    split at hstep
    · exact absurd hstep (by simp)
    · split at hstep
      · simp only [Option.some.injEq] at hstep
        subst hstep
        unfold Inv at h ⊢
        simp only
        refine ⟨⟨?_, ?_⟩, ?_, fun _ => ?_⟩ <;> omega
      · exact absurd hstep (by simp)
  | controllerEOF k =>
    simp only [step] at hstep
    split at hstep
    · exact absurd hstep (by simp)
    · split at hstep
      · exact absurd hstep (by simp)
      · rename_i o hk
        split at hstep
        · simp only [Option.some.injEq] at hstep
          subst hstep
          obtain ⟨a, b, c⟩ := relay_inv s k o { o with outRunning := false, done := true } h hk rfl
          exact ⟨a, b, fun _ => c⟩
        · exact absurd hstep (by simp)
  | channelEOF k =>
    simp only [step] at hstep
    split at hstep
    · exact absurd hstep (by simp)
    · split at hstep
      · exact absurd hstep (by simp)
      · rename_i o hk
        split at hstep
        · simp only [Option.some.injEq] at hstep
          subst hstep
          obtain ⟨a, b, c⟩ := relay_inv s k o { o with inRunning := false, done := true } h hk rfl
          exact ⟨a, b, fun _ => c⟩
        · exact absurd hstep (by simp)

theorem run_inv (shell : String) (es : List Event) :
    ∀ s s1 : Session, Inv s → run shell s es = some s1 →
      Inv s1 ∧ s.closes ≤ s1.closes ∧ ((∃ e ∈ es, e.isTrigger = true) → 1 ≤ s1.closes) := by
  induction es with
  | nil =>
    intro s s1 h hr
    simp only [run, Option.some.injEq] at hr
    subst hr
    exact ⟨h, Nat.le_refl _, by simp⟩
  | cons e es ih =>
    intro s s1 h hr
    simp only [run] at hr
    cases hst : step shell s e with
    | none => simp [hst] at hr
    | some s2 =>
      simp only [hst] at hr
      obtain ⟨a, b, c⟩ := step_inv shell s s2 e h hst
      obtain ⟨a2, b2, c2⟩ := ih s2 s1 a hr
      refine ⟨a2, by omega, ?_⟩
      rintro ⟨x, hx, hxt⟩
      rcases List.mem_cons.mp hx with rfl | hx
      · have := c hxt
        omega
      · exact c2 ⟨x, hx, hxt⟩

/-! ## Lemmas on the server and on the program that is started -/

theorem serveLoop_fail (e : String) (rest : List ServeStep) :
    ∀ (pre : List ServeStep) (srv : Server) (conns : List Nat) (accepts : Nat),
      (∀ x ∈ pre, x.isFail = false) →
      (serveLoop srv conns accepts (pre ++ ServeStep.fail e :: rest)).result
        = if srv.closed = true ∨ ServeStep.close ∈ pre then some none
          else some (some ("accept incoming connection: " ++ e)) := by
  intro pre
  induction pre with
  | nil =>
    intro srv conns accepts _
    cases hc : srv.closed <;> simp [serveLoop, Server.isClosed, hc]
  | cons x pre ih =>
    intro srv conns accepts hpre
    have hrest : ∀ y ∈ pre, y.isFail = false :=
      fun y hy => hpre y (List.mem_cons_of_mem _ hy)
    cases x with
    | conn c =>
      show (serveLoop srv (conns ++ [c]) (accepts + 1) (pre ++ ServeStep.fail e :: rest)).result
        = _
      rw [ih srv _ _ hrest]
      simp
    | fail m => exact absurd (hpre _ (List.mem_cons_self _ _)) (by simp [ServeStep.isFail])
    | close =>
      show (serveLoop srv.Close conns accepts (pre ++ ServeStep.fail e :: rest)).result = _
      rw [ih srv.Close _ _ hrest]
      simp [Server.Close]

theorem exec_command_extracted (shell : String) (s : Session) (b0 b1 b2 n : Nat)
    (c t spare : List Nat) (os : OS) (hn : n ≤ 251) (hc : c.length = n) :
    (handleRequest shell s
        { Type_ := "exec", Payload := { data := b0 :: b1 :: b2 :: n :: (c ++ t), spare := spare } }
        os).starts
      = s.starts ++ [(execCmd shell (String.mk (c.map Char.ofNat)), os.startOk)] := by
  have hi : Bytes.index { data := b0 :: b1 :: b2 :: n :: (c ++ t), spare := spare } 3 = some n :=
    rfl
  have hl : n + 4 ≤ Bytes.len { data := b0 :: b1 :: b2 :: n :: (c ++ t), spare := spare } := by
    simp [Bytes.len]
    omega
  have hd : ((b0 :: b1 :: b2 :: n :: (c ++ t)).take (n + 4)).drop 4 = c := by
    simp [List.take_append_eq_append_take, hc]
  simp only [handleRequest, if_true]
  rw [handleExec_wellFormed shell s _ os n hi hn hl]
  simp only [hd]
  cases os.startOk <;> simp [Session.reply]

theorem handleRequest_paths (shell : String) (s : Session) (req : Request) (os : OS)
    (h : ∀ c ∈ s.starts, c.1.Path = shell) :
    ∀ c ∈ (handleRequest shell s req os).starts, c.1.Path = shell := by
  unfold handleRequest handleExec handleShell handlePtyReq handleWindowChange
  repeat' split
  all_goals
    simp only [Session.panic, Session.reply, Session.setWinSize, List.mem_append,
      List.mem_singleton]
    intro c hc
    first
      | exact h c hc
      | (rcases hc with hc | hc
         · exact h c hc
         · subst hc; rfl)

theorem requestLoop_paths (shell : String) (rs : List (Request × OS)) :
    ∀ s : Session, (∀ c ∈ s.starts, c.1.Path = shell) →
      ∀ c ∈ (requestLoop shell s rs).starts, c.1.Path = shell := by
  induction rs with
  | nil => intro s h; exact h
  | cons r rs ih =>
    intro s h
    obtain ⟨req, os⟩ := r
    have h1 := handleRequest_paths shell s req os h
    by_cases hp : (handleRequest shell s req os).panicked = true
    · rw [requestLoop_cons_panic shell s req os rs hp]
      exact h1
    · have hp2 : (handleRequest shell s req os).panicked = false := by simpa using hp
      rw [requestLoop_cons_ok shell s req os rs hp2]
      exact ih _ h1

theorem started_program_is_environment_shell (srv : Server) (SHELL : String) (c : NewChannel) :
    ∀ x ∈ startsOf (handleChannel srv SHELL c),
      x.1.Path = if SHELL = "" then DefaultShell else SHELL := by
  intro x hx
  unfold handleChannel at hx
  split at hx
  · simp [startsOf] at hx
  · split at hx
    · simp [startsOf] at hx
    · split at hx
      · simp [startsOf] at hx
      · simp only [startsOf, List.append_nil] at hx
        exact requestLoop_paths _ c.requests Session.init (by simp [Session.init]) x hx

/-! ## Claims -/

/-- C9: after a sequence of "window-change" requests whose payloads are the
big-endian encodings of a width and a height below 65536, handled from a
session that has not panicked, the last struct handed to the terminal has
exactly the width and height of the last request (`parseDims` returns them in
the order width, height and `SetWinSize` stores them unchanged), the terminal
has that size when the last ioctl succeeded, and whatever the ioctls
returned no reply was sent and nothing panicked. -/
theorem window_change_applies_last (shell : String) (s : Session) (hs : s.panicked = false)
    (ds : List ((Nat × Nat) × OS)) (w h : Nat) (os : OS)
    (hds : ∀ d ∈ ds, d.1.1 < 65536 ∧ d.1.2 < 65536) (hw : w < 65536) (hh : h < 65536) :
    parseDims (windowChange w h).Payload = some (w, h)
    ∧ SetWinSize w h = { Width := w, Height := h, x := 0, y := 0 }
    ∧ (requestLoop shell s (windowChanges (ds ++ [((w, h), os)]))).ioctls.getLast?
        = some ({ Width := w, Height := h, x := 0, y := 0 }, os.errno)
    ∧ (os.errno = 0 →
        (requestLoop shell s (windowChanges (ds ++ [((w, h), os)]))).termSize
          = some { Width := w, Height := h, x := 0, y := 0 })
    ∧ (requestLoop shell s (windowChanges (ds ++ [((w, h), os)]))).replies = s.replies
    ∧ (requestLoop shell s (windowChanges (ds ++ [((w, h), os)]))).panicked = false := by
  have hS : SetWinSize w h = { Width := w, Height := h, x := 0, y := 0 } := by
    simp only [SetWinSize]
    rw [Nat.mod_eq_of_lt (by omega), Nat.mod_eq_of_lt (by omega)]
  have hP : parseDims (windowChange w h).Payload = some (w, h) := by
    have := parseDims_be32 w h (by omega) (by omega) [] []
    simpa [windowChange] using this
  obtain ⟨hmp, hmr⟩ := requestLoop_windowChanges shell ds hds s hs
  have e : requestLoop shell s (windowChanges (ds ++ [((w, h), os)]))
      = (requestLoop shell s (windowChanges ds)).setWinSize w h os.errno := by
    have : windowChanges (ds ++ [((w, h), os)])
        = windowChanges ds ++ [(windowChange w h, os)] := by
      simp [windowChanges]
    rw [this, requestLoop_append shell _ _ s hmp]
    have e1 := handleRequest_windowChange shell (requestLoop shell s (windowChanges ds)) w h os
      (by omega) (by omega)
    have hp1 : (handleRequest shell (requestLoop shell s (windowChanges ds))
        (windowChange w h) os).panicked = false := by
      rw [e1]; exact hmp
    rw [requestLoop_cons_ok shell _ _ _ _ hp1, e1]
    rfl
  rw [e]
  refine ⟨hP, hS, ?_, ?_, hmr, hmp⟩
  · simp [Session.setWinSize, hS]
  · intro h0
    simp [Session.setWinSize, hS, h0]

/-- Witness of C9: 80x24 followed by 120x40 leaves 120x40, with both ioctls
failing with ENOTTY (25) and no reply sent. -/
theorem window_change_applies_last_witness :
    (requestLoop "sh" Session.init
        (windowChanges ([((80, 24), { startOk := false, errno := 25 })]
          ++ [((120, 40), { startOk := false, errno := 25 })]))).ioctls.getLast?
      = some ({ Width := 120, Height := 40, x := 0, y := 0 }, 25)
    ∧ (requestLoop "sh" Session.init
        (windowChanges ([((80, 24), { startOk := false, errno := 25 })]
          ++ [((120, 40), { startOk := false, errno := 25 })]))).replies = [] :=
  have h := window_change_applies_last "sh" Session.init rfl
    [((80, 24), { startOk := false, errno := 25 })] 120 40 { startOk := false, errno := 25 }
    (by decide) (by decide) (by decide)
  ⟨h.2.2.1, h.2.2.2.2.1⟩

/-- C8: when `Accept` fails (after any number of accepted connections), `Serve`
returns nil if the server was closed before or `Close` was called in the
meantime, and otherwise an error whose message is
"accept incoming connection: " followed by the text of the accept error;
`Close` sets the flag that `isClosed` reads; with a nil listener `Serve`
returns an error without a call of `Accept`. -/
theorem Serve_on_accept_failure (srv : Server) (pre : List ServeStep) (e : String)
    (rest : List ServeStep) (hpre : ∀ x ∈ pre, x.isFail = false) :
    (srv.Serve (some (pre ++ ServeStep.fail e :: rest))).result
        = (if srv.closed = true ∨ ServeStep.close ∈ pre then some none
           else some (some ("accept incoming connection: " ++ e)))
    ∧ srv.Close.isClosed = true
    ∧ (srv.Serve none).result = some (some "listen on nil listener")
    ∧ (srv.Serve none).accepts = 0 := by
  refine ⟨?_, rfl, rfl, rfl⟩
  simp only [Server.Serve]
  rw [serveLoop_fail e rest pre _ [] 0 hpre]

/-- Witness of C8: one connection, then `Close`, then the failing `Accept`:
`Serve` returns nil; without the `Close` it returns the wrapped error. -/
theorem Serve_on_accept_failure_witness :
    (Server.Serve { shellPath := "bash", hasListener := false, listenerCloses := 0,
                    closed := false }
      (some ([ServeStep.conn 1, ServeStep.close]
        ++ ServeStep.fail "use of closed network connection" :: []))).result = some none
    ∧ (Server.Serve { shellPath := "bash", hasListener := false, listenerCloses := 0,
                      closed := false }
      (some ([ServeStep.conn 1]
        ++ ServeStep.fail "too many open files" :: []))).result
        = some (some "accept incoming connection: too many open files") :=
  ⟨(Serve_on_accept_failure _ [ServeStep.conn 1, ServeStep.close] _ [] (by decide)).1,
   (Serve_on_accept_failure _ [ServeStep.conn 1] _ [] (by decide)).1⟩

/-- C1: a channel whose type is not "session" is rejected with
`UnknownChannelType` and the message "unknown channel type: <type>", and that
is all that is done for it (no `Accept`, no `pty.Open`, no request goroutine,
no `cmd.Start`) before the next channel is handled; for a channel of type
"session" there is no call of `Reject`. -/
theorem handleChannels_session_only (srv : Server) (SHELL : String) (c : NewChannel)
    (rest : List NewChannel) :
    (c.ChannelType ≠ "session" →
      handleChannels srv SHELL (c :: rest)
          = [ChanEvent.reject RejectionReason.UnknownChannelType
              ("unknown channel type: " ++ c.ChannelType)]
            :: handleChannels srv SHELL rest
      ∧ (∀ ev ∈ handleChannel srv SHELL c, ev.isAccept = false ∧ ev.isPtyOpen = false)
      ∧ startsOf (handleChannel srv SHELL c) = [])
    ∧ (c.ChannelType = "session" →
      (∀ ev ∈ handleChannel srv SHELL c, ev.isReject = false)
      ∧ handleChannels srv SHELL (c :: rest)
          = handleChannel srv SHELL c :: handleChannels srv SHELL rest) := by
  constructor
  · intro h
    have e : handleChannel srv SHELL c
        = [ChanEvent.reject RejectionReason.UnknownChannelType
            ("unknown channel type: " ++ c.ChannelType)] := by
      simp [handleChannel, h]
    refine ⟨by simp [handleChannels, e], ?_, ?_⟩
    · intro ev hev
      rw [e] at hev
      simp at hev
      subst hev
      exact ⟨rfl, rfl⟩
    · rw [e]; rfl
  · intro h
    refine ⟨?_, rfl⟩
    intro ev hev
    simp only [handleChannel, h] at hev
    by_cases ha : c.acceptOk = false
    · simp [ha] at hev
      subst hev; rfl
    · by_cases hp : c.ptyOk = false
      · simp [ha, hp] at hev
        rcases hev with hev | hev <;> subst hev <;> rfl
      · simp [ha, hp] at hev
        rcases hev with hev | hev | hev <;> subst hev <;> rfl

/-- Witness of C1: a "direct-tcpip" channel followed by a "session" channel. -/
theorem handleChannels_session_only_witness :
    handleChannels { shellPath := "bash", hasListener := true, listenerCloses := 0,
                     closed := false } ""
        ({ ChannelType := "direct-tcpip", acceptOk := true, ptyOk := true,
           requests := [(execEchoHi, osOk)] }
          :: [{ ChannelType := "session", acceptOk := true, ptyOk := true, requests := [] }])
      = [[ChanEvent.reject RejectionReason.UnknownChannelType
            "unknown channel type: direct-tcpip"],
         [ChanEvent.accept true, ChanEvent.ptyOpen true, ChanEvent.serve "sh" Session.init]] :=
  ((handleChannels_session_only _ ""
      { ChannelType := "direct-tcpip", acceptOk := true, ptyOk := true,
        requests := [(execEchoHi, osOk)] }
      [{ ChannelType := "session", acceptOk := true, ptyOk := true, requests := [] }]).1
    (by decide)).1

/-- C10, evaluated: the server is created with the shell path "bash"; with
SHELL=/bin/zsh in the environment a "shell" request and an "exec" request
start "/bin/zsh", and with SHELL unset they start "sh"; "bash" is never
started. -/
theorem shell_is_taken_from_environment :
    (NewServer "bash" Config.serverConfig).map
        (fun srv => startsOf (handleChannel srv "/bin/zsh"
          { ChannelType := "session", acceptOk := true, ptyOk := true,
            requests := [({ Type_ := "shell", Payload := { data := [], spare := [] } }, osOk),
                         (execEchoHi, osOk)] }))
      = some [(shellCmd "/bin/zsh", true), (execCmd "/bin/zsh" "echo hi", true)]
    ∧ (NewServer "bash" Config.serverConfig).map
        (fun srv => startsOf (handleChannel srv ""
          { ChannelType := "session", acceptOk := true, ptyOk := true,
            requests := [({ Type_ := "shell", Payload := { data := [], spare := [] } }, osOk),
                         (execEchoHi, osOk)] }))
      = some [(shellCmd "sh", true), (execCmd "sh" "echo hi", true)]
    ∧ (NewServer "bash" Config.serverConfig).map (fun srv => srv.shellPath) = some "bash" := by
  decide

/-- Counterexample to C2: two "exec" requests on one session, both processes
start; the second request is replied with success and two processes have been
started. -/
theorem second_exec_starts_second_process :
    (requestLoop "sh" Session.init [(execEchoHi, osOk), (execEchoHi, osOk)]).starts
        = [(execCmd "sh" "echo hi", true), (execCmd "sh" "echo hi", true)]
    ∧ (requestLoop "sh" Session.init [(execEchoHi, osOk), (execEchoHi, osOk)]).replies
        = [true, true] := by
  decide

/-- C2, amended: in a stream of requests handled without a panic every "exec"
and every "shell" request calls `cmd.Start` once, whatever was started
before: the number of calls equals the number of these requests and the
number of processes started equals the number of them whose start succeeds;
a well-formed "exec" request whose process starts is replied with success in
every state of the session. -/
theorem starts_follow_requests (shell : String) (rs : List (Request × OS))
    (h : (requestLoop shell Session.init rs).panicked = false) :
    (requestLoop shell Session.init rs).starts.length = rs.countP (fun r => isLaunch r.1)
    ∧ (requestLoop shell Session.init rs).starts.countP (fun c => c.2)
        = rs.countP (fun r => isLaunch r.1 && r.2.startOk)
    ∧ (∀ (s : Session) (req : Request) (os : OS), req.Type_ = "exec" →
        wellFormed req = true → os.startOk = true →
        (handleRequest shell s req os).replies = s.replies ++ [true]
        ∧ (handleRequest shell s req os).starts.length = s.starts.length + 1) := by
  obtain ⟨a, b⟩ := requestLoop_starts shell rs Session.init h
  refine ⟨by simpa [Session.init] using a, by simpa [Session.init] using b, ?_⟩
  intro s req os ht hw hso
  unfold wellFormed at hw
  simp only [ht, if_true] at hw
  cases hn : req.Payload.index 3 with
  | none => simp [hn] at hw
  | some n =>
    simp only [hn, Bool.and_eq_true, decide_eq_true_eq] at hw
    simp only [handleRequest, ht, if_true]
    rw [handleExec_wellFormed shell s req os n hn hw.1 hw.2]
    simp [hso, Session.reply]

/-- Witness of C2, amended: two "exec" requests and a "shell" request. -/
theorem starts_follow_requests_witness :
    (requestLoop "sh" Session.init
      [(execEchoHi, osOk), (execEchoHi, osOk),
       ({ Type_ := "shell", Payload := { data := [], spare := [] } }, osOk)]).starts.length
      = [(execEchoHi, osOk), (execEchoHi, osOk),
         (({ Type_ := "shell", Payload := { data := [], spare := [] } } : Request),
           osOk)].countP (fun r => isLaunch r.1) :=
  (starts_follow_requests "sh"
    [(execEchoHi, osOk), (execEchoHi, osOk),
     ({ Type_ := "shell", Payload := { data := [], spare := [] } }, osOk)] (by decide)).1

/-- Counterexample to C4: a "pty-req" request with an empty payload panics
before any reply, and a well-formed "exec" request whose process does not
start is not replied to. -/
theorem pty_req_and_failed_exec_without_reply :
    (handleRequest "sh" Session.init (emptyRequest "pty-req") osOk).replies = []
    ∧ (handleRequest "sh" Session.init (emptyRequest "pty-req") osOk).panicked = true
    ∧ wellFormed execEchoHi = true
    ∧ (handleRequest "sh" Session.init execEchoHi { startOk := false, errno := 0 }).replies = []
    ∧ (handleRequest "sh" Session.init execEchoHi
        { startOk := false, errno := 0 }).panicked = false := by
  decide

/-- C4, amended: a "window-change" request produces no call of `Reply`; a
"pty-req" request with a well-formed payload, a "shell" request with an empty
payload, and an "exec" request with a well-formed payload whose process starts
each produce exactly one call of `Reply`, with success. -/
theorem replies_per_request (shell : String) (s : Session) (req : Request) (os : OS) :
    (req.Type_ = "window-change" → (handleRequest shell s req os).replies = s.replies)
    ∧ (req.Type_ = "pty-req" → wellFormed req = true →
        (handleRequest shell s req os).replies = s.replies ++ [true])
    ∧ (req.Type_ = "shell" → req.Payload.len = 0 →
        (handleRequest shell s req os).replies = s.replies ++ [true])
    ∧ (req.Type_ = "exec" → wellFormed req = true → os.startOk = true →
        (handleRequest shell s req os).replies = s.replies ++ [true]) := by
  refine ⟨?_, ?_, ?_, ?_⟩
  · intro ht
    simp only [handleRequest, ht]
    exact (handleWindowChange_replies s req os).1
  · intro ht hw
    unfold wellFormed at hw
    simp only [ht] at hw
    cases hn : req.Payload.index 3 with
    | none => simp [hn] at hw
    | some n =>
      simp [hn] at hw
      obtain ⟨w, h, e⟩ := handlePtyReq_wellFormed s req os n hn hw.1 hw.2
      simp only [handleRequest, ht]
      simp [e, Session.reply, Session.setWinSize]
  · intro ht hl
    simp only [handleRequest, ht]
    simp [handleShell, Session.reply, hl]
  · intro ht hw hso
    unfold wellFormed at hw
    simp only [ht, if_true] at hw
    cases hn : req.Payload.index 3 with
    | none => simp [hn] at hw
    | some n =>
      simp only [hn, Bool.and_eq_true, decide_eq_true_eq] at hw
      simp only [handleRequest, ht, if_true]
      rw [handleExec_wellFormed shell s req os n hn hw.1 hw.2]
      simp [hso, Session.reply]

/-- Witness of C4, amended: the "exec" request for "echo hi" whose process
starts is replied to once. -/
theorem replies_per_request_witness :
    (handleRequest "sh" Session.init execEchoHi osOk).replies = Session.init.replies ++ [true] :=
  (replies_per_request "sh" Session.init execEchoHi osOk).2.2.2 (by decide) (by decide)
    (by decide)

set_option maxRecDepth 16384 in
/-- C5, evaluated: for a command of 252 bytes (and of 255 bytes) after the
prefix [0,0,0,n] the "exec" handler panics and no command is started, while
the command of 251 bytes is extracted whole. -/
theorem exec_length_byte_wraps :
    (handleRequest "sh" Session.init execLong252 osOk).panicked = true
    ∧ (handleRequest "sh" Session.init execLong252 osOk).starts = []
    ∧ (handleRequest "sh" Session.init
        { Type_ := "exec",
          Payload := { data := [0, 0, 0, 255] ++ List.replicate 255 97, spare := [] } }
        osOk).panicked = true
    ∧ (handleRequest "sh" Session.init
        { Type_ := "exec",
          Payload := { data := [0, 0, 0, 251] ++ List.replicate 251 97, spare := [] } }
        osOk).starts = [(execCmd "sh" (String.mk (List.replicate 251 (Char.ofNat 97))), true)] :=
  ⟨by decide, by decide, by decide, by rfl⟩

/-- Counterexample to C6: an "exec" request with an empty payload, a "pty-req"
request with an empty payload and a "window-change" request of 7 bytes each
end in a panic without a reply, and the request that follows in the stream is
not handled. -/
theorem truncated_payload_panics :
    (handleRequest "sh" Session.init (emptyRequest "exec") osOk).panicked = true
    ∧ (handleRequest "sh" Session.init (emptyRequest "exec") osOk).replies = []
    ∧ (handleRequest "sh" Session.init (emptyRequest "pty-req") osOk).panicked = true
    ∧ (handleRequest "sh" Session.init
        { Type_ := "window-change", Payload := { data := [0, 0, 0, 80, 0, 0, 0], spare := [] } }
        osOk).panicked = true
    ∧ requestLoop "sh" Session.init [(emptyRequest "exec", osOk), (execEchoHi, osOk)]
        = Session.init.panic := by
  decide

/-- C6, amended: a request whose payload is well formed ("exec": a length
byte n <= 251 at index 3 and at least n bytes after it; "pty-req": the same
and at least 8 more bytes; "window-change": at least 8 bytes) is handled
without a panic and the loop goes on with the next request; and no "exec",
"pty-req" or "window-change" request, whatever its payload, is replied with
failure. -/
theorem well_formed_payload_no_panic (shell : String) (s : Session) (req : Request) (os : OS)
    (rest : List (Request × OS)) :
    (s.panicked = false → wellFormed req = true →
      (handleRequest shell s req os).panicked = false
      ∧ requestLoop shell s ((req, os) :: rest)
          = requestLoop shell (handleRequest shell s req os) rest)
    ∧ (req.Type_ = "exec" ∨ req.Type_ = "pty-req" ∨ req.Type_ = "window-change" →
      (handleRequest shell s req os).replies = s.replies
      ∨ (handleRequest shell s req os).replies = s.replies ++ [true]) :=
  ⟨fun hs hw =>
    ⟨handleRequest_wellFormed shell s req os hs hw,
     requestLoop_cons_ok shell s req os rest (handleRequest_wellFormed shell s req os hs hw)⟩,
   handleRequest_no_failure_reply shell s req os⟩

/-- Witness of C6, amended: "exec" of "echo hi" followed by a window change. -/
theorem well_formed_payload_no_panic_witness :
    (handleRequest "sh" Session.init execEchoHi osOk).panicked = false
    ∧ requestLoop "sh" Session.init ((execEchoHi, osOk) :: [(windowChange 80 24, osOk)])
        = requestLoop "sh" (handleRequest "sh" Session.init execEchoHi osOk)
            [(windowChange 80 24, osOk)] :=
  (well_formed_payload_no_panic "sh" Session.init execEchoHi osOk
    [(windowChange 80 24, osOk)]).1 rfl (by decide)

/-- C7, evaluated: every "shell" request calls `cmd.Start` through `PtyRun`
and starts the two relay goroutines before the payload is looked at; for the
payload `[1]` the shell is started, the relays run and the reply is failure. -/
theorem shell_started_before_payload_check :
    (∀ (shell : String) (s : Session) (payload : Bytes) (os : OS),
      handleRequest shell s { Type_ := "shell", Payload := payload } os
        = { s with
            starts := s.starts ++ [(shellCmd shell, os.startOk)],
            ttyCloses := s.ttyCloses + 1,
            onces := s.onces ++ [{ done := false, outRunning := true, inRunning := true }],
            replies := s.replies ++ [decide (payload.len = 0)] })
    ∧ (handleRequest "sh" Session.init shellWithPayload osOk).starts = [(shellCmd "sh", true)]
    ∧ (handleRequest "sh" Session.init shellWithPayload osOk).onces
        = [{ done := false, outRunning := true, inRunning := true }]
    ∧ (handleRequest "sh" Session.init shellWithPayload osOk).replies = [false] := by
  refine ⟨?_, by decide, by decide, by decide⟩
  intro shell s payload os
  simp [handleRequest, handleShell, Session.reply]

/-- Counterexample to C3: two "exec" requests whose processes start and then
exit lead to a reachable state with two calls of `channel.Close()`. -/
theorem two_execs_close_twice :
    (run "sh" Session.init
      [Event.request execEchoHi osOk, Event.request execEchoHi osOk,
       Event.processExit, Event.processExit]).map (fun s => s.closes) = some 2 := by
  decide

/-- C3, amended: in every reachable state of a session the number of calls of
`channel.Close()` is at most the number of calls of `cmd.Start` (one per
"exec" or "shell" request handled), hence at most 1 when at most one such
request was handled, and it is at least 1 once any teardown trigger has
fired. -/
theorem closes_bounded_by_starts (shell : String) (es : List Event) (s : Session)
    (h : run shell Session.init es = some s) :
    s.closes ≤ s.starts.length
    ∧ (s.starts.length ≤ 1 → s.closes ≤ 1)
    ∧ ((∃ e ∈ es, e.isTrigger = true) → 1 ≤ s.closes)
    ∧ ((∃ e ∈ es, e.isTrigger = true) → s.starts.length ≤ 1 → s.closes = 1) := by
  have h0 : Inv Session.init := by simp [Inv, Session.init]
  obtain ⟨a, _, c⟩ := run_inv shell es Session.init s h0 h
  unfold Inv at a
  refine ⟨by omega, fun _ => by omega, c, fun ht hl => ?_⟩
  have := c ht
  omega

/-- Witness of C3, amended: a "shell" request, then both relay goroutines reach
EOF: one call of `channel.Close()`. -/
theorem closes_bounded_by_starts_witness :
    run "sh" Session.init
        [Event.request (emptyRequest "shell") osOk, Event.controllerEOF 0, Event.channelEOF 0]
      = some shellClosed
    ∧ shellClosed.closes = 1 :=
  ⟨by decide,
   (closes_bounded_by_starts "sh"
      [Event.request (emptyRequest "shell") osOk, Event.controllerEOF 0, Event.channelEOF 0]
      shellClosed (by decide)).2.2.2 ⟨Event.controllerEOF 0, by decide, rfl⟩ (by decide)⟩

end Sshd
